import Mathlib

/-!
Verification of the sampling-and-acquisition engine of the DAW_NYC_data
repository (`src/libs/calculator.py` and `src/libs/fetcher.py`) against its
natural-language specification.

Shallow-embedding conventions used throughout:
* A pandas DataFrame of stratum counts is modelled by the list of its
  `total` column values (`List ℤ`); a DataFrame of fetched records is
  modelled by a `List Row` for an abstract row type.
* Python float arithmetic on shares is modelled by exact rational
  arithmetic (`ℚ`); numpy/pandas `.round()` rounds half to even, which
  `roundHalfEven` implements exactly.
* A raised Python exception is modelled by the `.error` case of `Except`;
  code that cannot raise is a total function.
* The ambient random sources (`random.randint`, `random.choice`,
  `DataFrame.sample`, `Series.sample`) are modelled as explicit parameters:
  a concrete offset / sort direction, and a selection function `pick`
  required (by `ValidPick`) to draw the requested number of rows without
  replacement.
* The HTTP layer (`requests.get` + CSV parsing) is an oracle
  `Request → Except HttpError (List Row)`; the embedded fetchers also
  return the list of requests they issue, so that single-request and
  query-composition properties can be stated.
* Timestamps (`created_date` values and calendar days) are modelled as
  integers; one calendar day is `1`.
-/

set_option maxRecDepth 8000

/-- Sort direction chosen by `random.choice(["ASC", "DESC"])`. -/
inductive OrderDir : Type
  | asc
  | desc
deriving DecidableEq

/-- Failure of one remote call: transport error, timeout, or a non-2xx
status surfaced by `resp.raise_for_status()` (all are `Exception`s caught
at the call site). -/
inductive HttpError : Type
  | transport
  | status
deriving DecidableEq

/-- Python exceptions raised by the engine itself.
`invalidInput` models the pandas `IntCastingNaNError` raised by
`.astype(int)` on the non-finite shares produced when the grand total is
zero (the spec's `InvalidInputError`); `zeroDivision` models Python's
`ZeroDivisionError`. -/
inductive PyError : Type
  | invalidInput
  | zeroDivision
deriving DecidableEq

/-- The `$where` clause composed by the fetchers:
`created_date between '{start}' and '{end}' AND {group_by}='{group_value}'`.
The string is modelled structurally by its four components. -/
structure WhereClause : Type where
  startT : ℤ
  endT : ℤ
  groupBy : String
  groupValue : String
deriving DecidableEq

/-- SoQL (and SQL) `x between a and b` denotes the closed interval:
`a <= x AND x <= b`, inclusive of both endpoints.  A row matches the
composed `$where` clause iff its `created_date` lies in the closed window
and its grouping column equals the requested stratum value. -/
def WhereClause.matchesRow (w : WhereClause) (created : ℤ) (g : String) : Bool :=
  (decide (w.startT ≤ created) && decide (created ≤ w.endT)) && (g == w.groupValue)

/-- One outbound `requests.get` call: the URL plus the Socrata query
parameters `$select`, `$where`, `$limit`, `$offset`, `$order`, and the
`timeout=` keyword argument when the source passes one (`none` when the
source calls `requests.get` without a timeout). -/
structure Request : Type where
  url : String
  select : List String
  whereC : WhereClause
  limit : ℤ
  offset : ℕ
  orderDir : OrderDir
  timeout : Option ℕ
deriving DecidableEq

/-- numpy/pandas `.round()` to zero decimals: round half to even. -/
def roundHalfEven (q : ℚ) : ℤ :=
  let n := Int.floor q
  let frac := q - (n : ℚ)
  if frac < 1 / 2 then n
  else if 1 / 2 < frac then n + 1
  else if n % 2 = 0 then n else n + 1

/-- The `sample_size` column before the rounding-error adjustment:
`(data["total"] / total_records * target_sample_size).round().astype(int)`. -/
def raw_sizes (totals : List ℤ) (target_sample_size : ℤ) : List ℤ :=
  totals.map fun (t : ℤ) =>
    roundHalfEven ((t : ℚ) / (totals.sum : ℚ) * (target_sample_size : ℚ))

/-- `calc_sample_size` from `src/libs/calculator.py`, reduced to the
`sample_size` column (the only derived data).  When the input is non-empty
and its grand total is zero, every share is `NaN` or `±inf` and
`.astype(int)` raises (`invalidInput`); on the empty input all
column operations are no-ops on empty series and the function returns the
empty allocation.  Otherwise `diff = target - sum(sample_size)` is added to
the first row's size whenever it is non-zero and the frame is non-empty. -/
def calc_sample_size (totals : List ℤ) (target_sample_size : ℤ) :
    Except PyError (List ℤ) :=
  let total_records := totals.sum
  if totals ≠ [] ∧ total_records = 0 then
    .error .invalidInput
  else
    let sizes := raw_sizes totals target_sample_size
    let diff := target_sample_size - sizes.sum
    if diff ≠ 0 then
      match sizes with
      | [] => .ok []
      | s :: rest => .ok ((s + diff) :: rest)
    else
      .ok sizes

/-- C1: for counts with positive grand total and positive target, the
allocation succeeds, its sizes sum exactly to the target, every stratum
after the first keeps its arithmetically rounded share, the first stratum
absorbs the entire residual `diff`, and on totals `[1, 1, 1]` with target
`10` the plan is `[4, 3, 3]`. -/
theorem calc_sample_size_exact_sum (totals : List ℤ) (target : ℤ)
    (h1 : 0 < totals.sum) (_h2 : 0 < target) :
    (∃ plan, calc_sample_size totals target = .ok plan ∧
      plan.sum = target ∧
      plan.length = totals.length ∧
      plan.tail = (raw_sizes totals target).tail ∧
      plan.headI = (raw_sizes totals target).headI +
        (target - (raw_sizes totals target).sum)) ∧
    calc_sample_size [1, 1, 1] 10 = .ok [4, 3, 3] := by
  constructor
  · have hne : totals ≠ [] := by
      intro h
      rw [h] at h1
      simp at h1
    have hcond : ¬(totals ≠ [] ∧ totals.sum = 0) := by
      intro h
      omega
    have hlen : (raw_sizes totals target).length = totals.length := by
      unfold raw_sizes
      exact List.length_map _ _
    by_cases hd : target - (raw_sizes totals target).sum = 0
    · refine ⟨raw_sizes totals target, ?_, by omega, hlen, rfl, by omega⟩
      simp only [calc_sample_size]
      rw [if_neg hcond, if_neg (by omega)]
    · cases hs : raw_sizes totals target with
      | nil =>
        exfalso
        apply hne
        rw [hs] at hlen
        exact List.length_eq_zero.mp hlen.symm
      | cons s rest =>
        rw [hs] at hd
        refine ⟨(s + (target - (s :: rest).sum)) :: rest, ?_, ?_, ?_, ?_, ?_⟩
        · simp only [calc_sample_size]
          rw [if_neg hcond, hs, if_pos (by omega)]
        · simp only [List.sum_cons]
          omega
        · rw [hs] at hlen
          simpa using hlen
        · simp [hs]
        · simp [hs, List.headI]
  · have h : raw_sizes [1, 1, 1] 10 = [3, 3, 3] := by
      simp only [raw_sizes, roundHalfEven, List.map_cons, List.map_nil, List.sum_cons,
        List.sum_nil]
      norm_num
    simp only [calc_sample_size, h]
    norm_num

/-- Witness for `calc_sample_size_exact_sum` at totals `[2, 3, 5]`,
target `4`. -/
theorem calc_sample_size_exact_sum_spot :
    (0 : ℤ) < [2, 3, 5].sum ∧ (0 : ℤ) < 4 ∧
    ((∃ plan, calc_sample_size [2, 3, 5] 4 = .ok plan ∧
      plan.sum = 4 ∧
      plan.length = ([2, 3, 5] : List ℤ).length ∧
      plan.tail = (raw_sizes [2, 3, 5] 4).tail ∧
      plan.headI = (raw_sizes [2, 3, 5] 4).headI +
        (4 - (raw_sizes [2, 3, 5] 4).sum)) ∧
    calc_sample_size [1, 1, 1] 10 = .ok [4, 3, 3]) :=
  ⟨by decide, by decide, calc_sample_size_exact_sum [2, 3, 5] 4 (by decide) (by decide)⟩

/-- C6 counterexample: the empty counts input has grand total zero, yet
`calc_sample_size` does not fail on it — all pandas column operations are
no-ops on empty series, so it returns the empty allocation normally. -/
theorem calc_sample_size_empty_input_ok :
    calc_sample_size ([] : List ℤ) 10 = .ok [] := by rfl

/-- C6 (amended): for every non-empty counts input whose totals sum to
zero, `calc_sample_size` fails synchronously (the shares are non-finite
and the integer cast raises — the spec's `InvalidInputError`). -/
theorem calc_sample_size_zero_total_fails (totals : List ℤ) (target : ℤ)
    (hne : totals ≠ []) (h0 : totals.sum = 0) :
    calc_sample_size totals target = .error .invalidInput := by
  simp [calc_sample_size, hne, h0]

/-- Witness for `calc_sample_size_zero_total_fails` at totals `[0, 0]`,
target `7`. -/
theorem calc_sample_size_zero_total_fails_spot :
    ([0, 0] : List ℤ) ≠ [] ∧ ([0, 0] : List ℤ).sum = 0 ∧
    calc_sample_size [0, 0] 7 = .error .invalidInput :=
  ⟨by decide, by decide, calc_sample_size_zero_total_fails [0, 0] 7 (by decide) (by decide)⟩

/-- A selection function is a valid model of `DataFrame.sample(n=...)` /
`Series.sample(n=...)` when, for any feasible requested size, it returns
exactly that many elements drawn from the input without replacement
(`Subperm`: the result is a permutation of a sublist of the input). -/
def ValidPick {α : Type} (pick : List α → ℕ → List α) : Prop :=
  ∀ l n, n ≤ l.length → (pick l n).length = n ∧ List.Subperm (pick l n) l

/-- A concrete valid selection: take the first `n` elements. -/
def take_pick {α : Type} : List α → ℕ → List α := fun l n => l.take n

theorem take_pick_valid {α : Type} : ValidPick (@take_pick α) := by
  intro l n hn
  constructor
  · simp only [take_pick, List.length_take]
    omega
  · exact (List.take_sublist n l).subperm

/-- The single request composed by `fetch_random_sample`:
`limit = sample_size * multiplier`, the randomized offset and sort
direction, and — as in the source, where `requests.get(url, params=params)`
passes no `timeout=` — no timeout. -/
def frs_request (url : String) (selectors : List String)
    (group_value group_by : String) (time_start time_end : ℤ)
    (sample_size multiplier offset : ℕ) (order_dir : OrderDir) : Request :=
  { url := url
    select := selectors
    whereC := { startT := time_start, endT := time_end,
                groupBy := group_by, groupValue := group_value }
    limit := ((sample_size * multiplier : ℕ) : ℤ)
    offset := offset
    orderDir := order_dir
    timeout := none }

/-- `fetch_random_sample` from `src/libs/fetcher.py`.  The ambient random
draws (`random.randint(0, 10_000)` for the offset,
`random.choice(["ASC", "DESC"])` for the direction, and the
`df.sample(...)` subsample draw) are explicit parameters; the HTTP call
plus CSV parse is the oracle `http`.  The `try/except` around the request
maps any transport error / non-2xx status to a returned `None`
(here `none`); on success, a response longer than `sample_size` is reduced
to exactly `sample_size` rows by `df.sample(n=sample_size, ...)`.
The second component is the list of HTTP requests issued by the call. -/
def fetch_random_sample {Row : Type} (url : String) (selectors : List String)
    (group_value group_by : String) (time_start time_end : ℤ)
    (sample_size multiplier offset : ℕ) (order_dir : OrderDir)
    (pick : List Row → ℕ → List Row)
    (http : Request → Except HttpError (List Row)) :
    Option (List Row) × List Request :=
  let req := frs_request url selectors group_value group_by time_start time_end
    sample_size multiplier offset order_dir
  match http req with
  | .error _ => (none, [req])
  | .ok df =>
      if sample_size < df.length then (some (pick df sample_size), [req])
      else (some df, [req])

theorem frs_trace {Row : Type} (url : String) (selectors : List String)
    (group_value group_by : String) (time_start time_end : ℤ)
    (sample_size multiplier offset : ℕ) (order_dir : OrderDir)
    (pick : List Row → ℕ → List Row)
    (http : Request → Except HttpError (List Row)) :
    (fetch_random_sample url selectors group_value group_by time_start time_end
      sample_size multiplier offset order_dir pick http).2 =
    [frs_request url selectors group_value group_by time_start time_end
      sample_size multiplier offset order_dir] := by
  simp only [fetch_random_sample]
  cases http (frs_request url selectors group_value group_by time_start time_end
      sample_size multiplier offset order_dir) with
  | error e => rfl
  | ok df =>
      dsimp only
      split <;> rfl

/-- C2: on every successful call, the returned batch has exactly
`min(available_rows, sample_size)` rows: a response longer than
`sample_size` is reduced to exactly `sample_size` rows drawn without
replacement, a shorter one is kept whole, and the batch never exceeds
`sample_size` rows. -/
theorem fetch_random_sample_batch_size {Row : Type} (url : String)
    (selectors : List String) (group_value group_by : String)
    (time_start time_end : ℤ) (sample_size multiplier offset : ℕ)
    (order_dir : OrderDir) (pick : List Row → ℕ → List Row)
    (http : Request → Except HttpError (List Row)) (df : List Row)
    (hp : ValidPick pick)
    (hok : http (frs_request url selectors group_value group_by time_start time_end
      sample_size multiplier offset order_dir) = .ok df) :
    ∃ out, (fetch_random_sample url selectors group_value group_by time_start time_end
        sample_size multiplier offset order_dir pick http).1 = some out ∧
      out.length = min df.length sample_size ∧
      List.Subperm out df ∧
      out.length ≤ sample_size := by
  simp only [fetch_random_sample, hok]
  by_cases h : sample_size < df.length
  · obtain ⟨hlen, hsub⟩ := hp df sample_size (le_of_lt h)
    exact ⟨pick df sample_size, by simp [h], by omega, hsub, by omega⟩
  · exact ⟨df, by simp [h], by omega, List.Subperm.refl df, by omega⟩

/-- An HTTP oracle that always succeeds with five rows. -/
def http_five : Request → Except HttpError (List ℕ) := fun _ => .ok [1, 2, 3, 4, 5]

/-- An HTTP oracle that always fails with a non-2xx status. -/
def http_fail : Request → Except HttpError (List ℕ) := fun _ => .error .status

/-- Witness for `fetch_random_sample_batch_size`: a response of 5 rows with
target 3 yields exactly 3 rows. -/
theorem fetch_random_sample_batch_size_spot :
    ValidPick (@take_pick ℕ) ∧
    http_five (frs_request "u" ["created_date"] "BK" "borough" 0 5 3 2 7 OrderDir.asc) =
      .ok [1, 2, 3, 4, 5] ∧
    (∃ out, (fetch_random_sample "u" ["created_date"] "BK" "borough" 0 5 3 2 7
        OrderDir.asc (@take_pick ℕ) http_five).1 = some out ∧
      out.length = min ([1, 2, 3, 4, 5] : List ℕ).length 3 ∧
      List.Subperm out [1, 2, 3, 4, 5] ∧
      out.length ≤ 3) :=
  ⟨take_pick_valid, rfl,
    fetch_random_sample_batch_size "u" ["created_date"] "BK" "borough" 0 5 3 2 7
      OrderDir.asc (@take_pick ℕ) http_five [1, 2, 3, 4, 5] take_pick_valid rfl⟩

/-- C8: any transport error, timeout, or non-success status from the
single HTTP request is absorbed inside `fetch_random_sample` and mapped to
the returned failure marker `none`; the failure never propagates to the
caller. -/
theorem fetch_random_sample_absorbs_failure {Row : Type} (url : String)
    (selectors : List String) (group_value group_by : String)
    (time_start time_end : ℤ) (sample_size multiplier offset : ℕ)
    (order_dir : OrderDir) (pick : List Row → ℕ → List Row)
    (http : Request → Except HttpError (List Row)) (e : HttpError)
    (he : http (frs_request url selectors group_value group_by time_start time_end
      sample_size multiplier offset order_dir) = .error e) :
    (fetch_random_sample url selectors group_value group_by time_start time_end
      sample_size multiplier offset order_dir pick http).1 = none := by
  simp only [fetch_random_sample, he]

/-- Witness for `fetch_random_sample_absorbs_failure` on a failing
oracle. -/
theorem fetch_random_sample_absorbs_failure_spot :
    http_fail (frs_request "u" ["created_date"] "BK" "borough" 0 5 3 2 7 OrderDir.asc) =
      .error .status ∧
    (fetch_random_sample "u" ["created_date"] "BK" "borough" 0 5 3 2 7 OrderDir.asc
      (@take_pick ℕ) http_fail).1 = none :=
  ⟨rfl, fetch_random_sample_absorbs_failure "u" ["created_date"] "BK" "borough" 0 5 3 2 7
    OrderDir.asc (@take_pick ℕ) http_fail .status rfl⟩

/-- C9 counterexample: the one request issued by `fetch_random_sample`
carries no timeout (`requests.get` is called without a `timeout=`
argument, so the library default of no timeout applies), contradicting
the claim that the request carries an explicit timeout. -/
theorem fetch_random_sample_no_timeout_cex :
    ((fetch_random_sample "u" ["created_date"] "BK" "borough" 0 5 3 2 7 OrderDir.asc
      (@take_pick ℕ) http_fail).2).map Request.timeout = [none] := rfl

/-- C9 (amended): every call of `fetch_random_sample` issues exactly one
blocking HTTP request — no retry is attempted before the failure marker is
returned — but that request carries no explicit timeout. -/
theorem fetch_random_sample_single_request {Row : Type} (url : String)
    (selectors : List String) (group_value group_by : String)
    (time_start time_end : ℤ) (sample_size multiplier offset : ℕ)
    (order_dir : OrderDir) (pick : List Row → ℕ → List Row)
    (http : Request → Except HttpError (List Row)) :
    (fetch_random_sample url selectors group_value group_by time_start time_end
      sample_size multiplier offset order_dir pick http).2 =
      [frs_request url selectors group_value group_by time_start time_end
        sample_size multiplier offset order_dir] ∧
    (frs_request url selectors group_value group_by time_start time_end
      sample_size multiplier offset order_dir).timeout = none :=
  ⟨frs_trace url selectors group_value group_by time_start time_end
    sample_size multiplier offset order_dir pick http, rfl⟩

/-- `fetch_all_samples_from_plan` from `src/libs/fetcher.py`.  The plan is
the list of `(group_value, sample_size)` rows; `fetch` is the per-stratum
call of `fetch_random_sample` (a `none` stands for a failed fetch: the
source's `fetch_random_sample` returns `None`, and the subsequent
`df_sample[group_by] = group_value` then raises `TypeError` inside the
`try`, so the `except` skips the stratum; a fetch that itself raises is
caught the same way).  `with_group` models the defensive column
assignment `df_sample[group_by] = group_value` applied to every row of a
successful batch.  The accumulated batches are concatenated; when none
succeeded the result is the explicitly-empty frame `[]`
(`pd.DataFrame()`). -/
def fetch_all_samples_from_plan {Row : Type} (df_plan : List (String × ℤ))
    (fetch : String → ℤ → Option (List Row))
    (with_group : String → Row → Row) : List Row :=
  let all_samples := df_plan.filterMap fun e =>
    (fetch e.1 e.2).map fun df_sample => df_sample.map (with_group e.1)
  all_samples.flatten

/-- C3: the plan executor tolerates per-stratum failures: every row of the
result comes from a stratum whose fetch succeeded; when every stratum
fails the result is the explicitly-empty frame; and a failing stratum is
skipped with the loop continuing — removing a failing entry from the plan
does not change the result. -/
theorem fetch_all_samples_from_plan_tolerates_failures {Row : Type}
    (df_plan : List (String × ℤ)) (fetch : String → ℤ → Option (List Row))
    (with_group : String → Row → Row) :
    (∀ r, r ∈ fetch_all_samples_from_plan df_plan fetch with_group →
      ∃ e, e ∈ df_plan ∧ ∃ df, fetch e.1 e.2 = some df ∧
        r ∈ df.map (with_group e.1)) ∧
    ((∀ e, e ∈ df_plan → fetch e.1 e.2 = none) →
      fetch_all_samples_from_plan df_plan fetch with_group = []) ∧
    (∀ pre entry post, fetch entry.1 entry.2 = none →
      fetch_all_samples_from_plan (pre ++ entry :: post) fetch with_group =
      fetch_all_samples_from_plan (pre ++ post) fetch with_group) := by
  refine ⟨?_, ?_, ?_⟩
  · intro r hr
    simp only [fetch_all_samples_from_plan, List.mem_flatten, List.mem_filterMap] at hr
    obtain ⟨l, ⟨e, he, hmap⟩, hrl⟩ := hr
    cases hf : fetch e.1 e.2 with
    | none => rw [hf] at hmap; simp at hmap
    | some df =>
        rw [hf] at hmap
        simp only [Option.map_some'] at hmap
        have hl : List.map (with_group e.1) df = l := by
          injection hmap
        subst hl
        exact ⟨e, he, df, hf, hrl⟩
  · intro hall
    simp only [fetch_all_samples_from_plan]
    have : (df_plan.filterMap fun e =>
        (fetch e.1 e.2).map fun df_sample => df_sample.map (with_group e.1)) = [] := by
      rw [List.filterMap_eq_nil_iff]
      intro e he
      rw [hall e he]
      rfl
    rw [this]
    rfl
  · intro pre entry post hnone
    simp [fetch_all_samples_from_plan, List.filterMap_append, List.filterMap_cons, hnone]

/-- A plan-executor fetch oracle failing exactly on stratum `"B"`. -/
def fetch_ex : String → ℤ → Option (List ℕ) :=
  fun g _ => if g = "B" then none else some [1, 2]

/-- Witness for `fetch_all_samples_from_plan_tolerates_failures`: with the
middle of three strata failing, the failing stratum is skipped and the
result equals that of the plan without it. -/
theorem fetch_all_samples_from_plan_tolerates_failures_spot :
    fetch_ex "B" 1 = none ∧
    fetch_all_samples_from_plan ([("A", 1)] ++ ("B", (1 : ℤ)) :: [("C", 1)]) fetch_ex
        (fun _ r => r) =
      fetch_all_samples_from_plan ([("A", 1)] ++ [("C", 1)]) fetch_ex (fun _ r => r) :=
  ⟨rfl, (fetch_all_samples_from_plan_tolerates_failures
      ([("A", 1)] ++ ("B", (1 : ℤ)) :: [("C", 1)]) fetch_ex (fun _ r => r)).2.2
    [("A", 1)] ("B", 1) [("C", 1)] rfl⟩

/-- `pd.date_range(start, end, inclusive="left")` over whole days: the
half-open integer range `[start, end)`, empty whenever `end <= start`. -/
def date_range_left (start end_ : ℤ) : List ℤ :=
  (List.range (end_ - start).toNat).map fun (i : ℕ) => start + (i : ℤ)

/-- `calc_k_days` from `src/libs/fetcher.py`: enumerate the half-open
daily range, then draw `min(k_days, len(range))` days without replacement
(`pd.Series(rng).sample(n=k_days_min, ...)`, modelled by `pick`).  No
branch of the source can raise: a degenerate range yields an empty
`DatetimeIndex` and `sample(n=0)` returns an empty draw. -/
def calc_k_days (start end_ : ℤ) (k_days : ℕ)
    (pick : List ℤ → ℕ → List ℤ) : List ℤ :=
  let rng := date_range_left start end_
  let k_days_min := min k_days rng.length
  pick rng k_days_min

theorem calc_k_days_degenerate (start end_ : ℤ) (k_days : ℕ)
    (pick : List ℤ → ℕ → List ℤ) (hp : ValidPick pick) (h : end_ ≤ start) :
    calc_k_days start end_ k_days pick = [] := by
  have hrng : date_range_left start end_ = [] := by
    have : (end_ - start).toNat = 0 := by omega
    simp [date_range_left, this]
  simp only [calc_k_days, hrng, List.length_nil, Nat.min_zero]
  exact List.length_eq_zero.mp (hp [] 0 (by simp)).1

/-- C7 counterexample: for a degenerate range (`end <= start`)
`calc_k_days` does not fail — it returns the empty list of days
normally. -/
theorem calc_k_days_no_error_cex : calc_k_days 3 1 5 (@take_pick ℤ) = [] := rfl

/-- C7 (amended): for `end <= start`, `calc_k_days` returns the empty
list (it does not raise); for a valid range and positive `k_days` it
returns exactly `min(k_days, days_in_range)` distinct days, all within
the half-open range `[start, end)`. -/
theorem calc_k_days_spec (start end_ : ℤ) (k_days : ℕ)
    (pick : List ℤ → ℕ → List ℤ) (hp : ValidPick pick) :
    (end_ ≤ start → calc_k_days start end_ k_days pick = []) ∧
    (start < end_ → 0 < k_days →
      (calc_k_days start end_ k_days pick).length = min k_days (end_ - start).toNat ∧
      (calc_k_days start end_ k_days pick).Nodup ∧
      ∀ d, d ∈ calc_k_days start end_ k_days pick → start ≤ d ∧ d < end_) := by
  constructor
  · exact calc_k_days_degenerate start end_ k_days pick hp
  · intro hlt _
    have hlenr : (date_range_left start end_).length = (end_ - start).toNat := by
      simp [date_range_left]
    obtain ⟨hl, hsub⟩ := hp (date_range_left start end_)
      (min k_days (date_range_left start end_).length) (min_le_right _ _)
    have hnod : (date_range_left start end_).Nodup := by
      simp only [date_range_left]
      refine List.Nodup.map ?_ (List.nodup_range _)
      intro a b hab
      simp only at hab
      omega
    refine ⟨?_, ?_, ?_⟩
    · simp only [calc_k_days]
      rw [hl, hlenr]
    · simp only [calc_k_days]
      obtain ⟨w, hperm, hsubl⟩ := hsub
      exact hperm.nodup (hsubl.nodup hnod)
    · intro d hd
      simp only [calc_k_days] at hd
      have hmem : d ∈ date_range_left start end_ := hsub.subset hd
      simp only [date_range_left, List.mem_map, List.mem_range] at hmem
      obtain ⟨i, hi, rfl⟩ := hmem
      omega

/-- `DataFrame.drop_duplicates()` with the default `keep="first"`: remove
every exact-duplicate row, keeping the first occurrence. -/
def drop_duplicates {α : Type} [DecidableEq α] : List α → List α
  | [] => []
  | a :: l => a :: drop_duplicates (l.filter fun b => b ≠ a)
termination_by l => l.length
decreasing_by
  simp only [List.length_cons]
  exact Nat.lt_succ_of_le (List.length_filter_le _ l)

theorem mem_drop_duplicates {α : Type} [DecidableEq α] (l : List α) (a : α) :
    a ∈ drop_duplicates l ↔ a ∈ l := by
  induction l using drop_duplicates.induct with
  | case1 => simp [drop_duplicates]
  | case2 b l ih =>
      rw [drop_duplicates]
      by_cases h : a = b
      · simp [h]
      · rw [List.mem_cons, List.mem_cons, ih, List.mem_filter]
        simp [h]

theorem nodup_drop_duplicates {α : Type} [DecidableEq α] (l : List α) :
    (drop_duplicates l).Nodup := by
  induction l using drop_duplicates.induct with
  | case1 => simp [drop_duplicates]
  | case2 b l ih =>
      rw [drop_duplicates]
      refine List.nodup_cons.mpr ⟨?_, ih⟩
      intro hmem
      rw [mem_drop_duplicates] at hmem
      simp [List.mem_filter] at hmem

/-- Witness for `calc_k_days_spec` at range `[0, 9)`, `k_days = 5`. -/
theorem calc_k_days_spec_spot :
    ValidPick (@take_pick ℤ) ∧
    (((9 : ℤ) ≤ 0 → calc_k_days 0 9 5 (@take_pick ℤ) = []) ∧
    ((0 : ℤ) < 9 → 0 < 5 →
      (calc_k_days 0 9 5 (@take_pick ℤ)).length = min 5 ((9 : ℤ) - 0).toNat ∧
      (calc_k_days 0 9 5 (@take_pick ℤ)).Nodup ∧
      ∀ d, d ∈ calc_k_days 0 9 5 (@take_pick ℤ) → 0 ≤ d ∧ d < 9)) :=
  ⟨take_pick_valid, calc_k_days_spec 0 9 5 (@take_pick ℤ) take_pick_valid⟩

/-- The per-day request composed inside the loop of
`fetch_month_strat_data`: window `[d, d+1]` via the inclusive `between`,
`limit = per_day`, randomized offset and sort direction for the day
(modelled by `draws`), and — unlike `fetch_random_sample` — an explicit
`timeout=MAX_TIMEOUT`. -/
def month_req (BASE_URL : String) (MAX_TIMEOUT : ℕ) (selectors : List String)
    (group_by group_by_value : String) (per_day : ℤ)
    (draws : ℤ → OrderDir × ℕ) (d : ℤ) : Request :=
  { url := BASE_URL
    select := selectors
    whereC := { startT := d, endT := d + 1,
                groupBy := group_by, groupValue := group_by_value }
    limit := per_day
    offset := (draws d).2
    orderDir := (draws d).1
    timeout := some MAX_TIMEOUT }

/-- `per_day = int((target * per_day_mult) // len(days))`: float floor
division followed by `int()` of an already-floored value, i.e. the
mathematical floor of `target * per_day_mult / num_days`. -/
def month_per_day (target : ℤ) (per_day_mult : ℚ) (num_days : ℕ) : ℤ :=
  Int.floor ((target : ℚ) * per_day_mult / (num_days : ℚ))

/-- The accumulator `parts` of `fetch_month_strat_data`: one entry per day
whose request succeeded with a non-empty frame (`if not df_part.empty:
parts.append(df_part)`); failed days are logged and skipped. -/
def month_parts {Row : Type} [DecidableEq Row]
    (http : Request → Except HttpError (List Row))
    (req_of : ℤ → Request) (days : List ℤ) : List (List Row) :=
  days.filterMap fun d =>
    match http (req_of d) with
    | .ok df_part => if df_part = [] then none else some df_part
    | .error _ => none

/-- `fetch_month_strat_data` from `src/libs/fetcher.py`.  The chosen days
come from `calc_k_days`; when that set is empty the per-day target
computation `(target * per_day_mult) // len(days)` raises
`ZeroDivisionError` before any request is issued.  Otherwise one request
per day is issued; failed or empty days are skipped; if no day produced
rows the function logs a warning (the `Bool` flag) and returns the
explicitly-empty frame, else it concatenates the parts and removes
exact-duplicate rows.  The second component is the list of issued
requests. -/
def fetch_month_strat_data {Row : Type} [DecidableEq Row] (BASE_URL : String)
    (MAX_TIMEOUT : ℕ) (selectors : List String) (group_by group_by_value : String)
    (target : ℤ) (start end_ : ℤ) (k_days : ℕ) (per_day_mult : ℚ)
    (pick : List ℤ → ℕ → List ℤ) (draws : ℤ → OrderDir × ℕ)
    (http : Request → Except HttpError (List Row)) :
    Except PyError (List Row × Bool) × List Request :=
  let days := calc_k_days start end_ k_days pick
  if days = [] then
    (.error .zeroDivision, [])
  else
    let per_day := month_per_day target per_day_mult days.length
    let req_of := month_req BASE_URL MAX_TIMEOUT selectors group_by group_by_value
      per_day draws
    let parts := month_parts http req_of days
    if parts = [] then
      (.ok ([], true), days.map req_of)
    else
      (.ok (drop_duplicates parts.flatten, false), days.map req_of)

/-- C10: when the chosen day set is empty — as `calc_k_days` produces for
any range with `end <= start`, returning `[]` instead of raising —
`fetch_month_strat_data` raises `ZeroDivisionError` while computing the
per-day target, before issuing any HTTP request. -/
theorem fetch_month_strat_data_zero_division {Row : Type} [DecidableEq Row]
    (BASE_URL : String) (MAX_TIMEOUT : ℕ) (selectors : List String)
    (group_by group_by_value : String) (target : ℤ) (start end_ : ℤ)
    (k_days : ℕ) (per_day_mult : ℚ) (pick : List ℤ → ℕ → List ℤ)
    (draws : ℤ → OrderDir × ℕ) (http : Request → Except HttpError (List Row))
    (hp : ValidPick pick) (h : end_ ≤ start) :
    fetch_month_strat_data BASE_URL MAX_TIMEOUT selectors group_by group_by_value
      target start end_ k_days per_day_mult pick draws http =
      (.error .zeroDivision, []) := by
  have hdays := calc_k_days_degenerate start end_ k_days pick hp h
  simp [fetch_month_strat_data, hdays]

/-- Witness for `fetch_month_strat_data_zero_division` at range `[3, 1)`. -/
theorem fetch_month_strat_data_zero_division_spot :
    ValidPick (@take_pick ℤ) ∧ (1 : ℤ) ≤ 3 ∧
    fetch_month_strat_data "u" 30 ["created_date"] "borough" "BK" 100 3 1 5 (7 / 5)
      (@take_pick ℤ) (fun _ => (OrderDir.asc, 0)) http_fail =
      (.error .zeroDivision, []) :=
  ⟨take_pick_valid, by decide,
    fetch_month_strat_data_zero_division "u" 30 ["created_date"] "borough" "BK" 100 3 1 5
      (7 / 5) (@take_pick ℤ) (fun _ => (OrderDir.asc, 0)) http_fail
      take_pick_valid (by decide)⟩

/-- C4: for every non-empty day plan, `fetch_month_strat_data` returns
normally with a frame containing no duplicate rows; a row appears in the
output iff it appears in some successful day's batch (so overlapping rows
across days appear exactly once); and when no day produced rows, the
result is the explicitly-empty frame together with the warning signal. -/
theorem fetch_month_strat_data_dedup {Row : Type} [DecidableEq Row]
    (BASE_URL : String) (MAX_TIMEOUT : ℕ) (selectors : List String)
    (group_by group_by_value : String) (target : ℤ) (start end_ : ℤ)
    (k_days : ℕ) (per_day_mult : ℚ) (pick : List ℤ → ℕ → List ℤ)
    (draws : ℤ → OrderDir × ℕ) (http : Request → Except HttpError (List Row))
    (hdays : calc_k_days start end_ k_days pick ≠ []) :
    ∃ df warned,
      (fetch_month_strat_data BASE_URL MAX_TIMEOUT selectors group_by group_by_value
        target start end_ k_days per_day_mult pick draws http).1 = .ok (df, warned) ∧
      df.Nodup ∧
      (∀ r, r ∈ df ↔ r ∈ (month_parts http
        (month_req BASE_URL MAX_TIMEOUT selectors group_by group_by_value
          (month_per_day target per_day_mult (calc_k_days start end_ k_days pick).length)
          draws)
        (calc_k_days start end_ k_days pick)).flatten) ∧
      (∀ r, r ∈ (month_parts http
        (month_req BASE_URL MAX_TIMEOUT selectors group_by group_by_value
          (month_per_day target per_day_mult (calc_k_days start end_ k_days pick).length)
          draws)
        (calc_k_days start end_ k_days pick)).flatten → df.count r = 1) ∧
      ((month_parts http
        (month_req BASE_URL MAX_TIMEOUT selectors group_by group_by_value
          (month_per_day target per_day_mult (calc_k_days start end_ k_days pick).length)
          draws)
        (calc_k_days start end_ k_days pick)) = [] → df = [] ∧ warned = true) := by
  by_cases hp0 : (month_parts http
      (month_req BASE_URL MAX_TIMEOUT selectors group_by group_by_value
        (month_per_day target per_day_mult (calc_k_days start end_ k_days pick).length)
        draws)
      (calc_k_days start end_ k_days pick)) = []
  · refine ⟨[], true, ?_, by simp, ?_, ?_, fun _ => ⟨rfl, rfl⟩⟩
    · simp [fetch_month_strat_data, hdays, hp0]
    · intro r
      simp [hp0]
    · intro r hr
      rw [hp0] at hr
      simp at hr
  · refine ⟨drop_duplicates (month_parts http
        (month_req BASE_URL MAX_TIMEOUT selectors group_by group_by_value
          (month_per_day target per_day_mult (calc_k_days start end_ k_days pick).length)
          draws)
        (calc_k_days start end_ k_days pick)).flatten, false, ?_,
      nodup_drop_duplicates _, fun r => mem_drop_duplicates _ _, ?_,
      fun h => absurd h hp0⟩
    · simp [fetch_month_strat_data, hdays, hp0]
    · intro r hr
      exact List.count_eq_one_of_mem (nodup_drop_duplicates _)
        ((mem_drop_duplicates _ _).mpr hr)

/-- A per-day oracle whose day-0 and day-1 responses overlap on row `2`. -/
def http_days : Request → Except HttpError (List ℕ) :=
  fun req => if req.whereC.startT = 0 then .ok [1, 2] else .ok [2, 3]

/-- Witness for `fetch_month_strat_data_dedup` over the two-day plan
`[0, 1)`, `[1, 2)` with overlapping responses. -/
theorem fetch_month_strat_data_dedup_spot :
    calc_k_days 0 2 2 (@take_pick ℤ) ≠ [] ∧
    (∃ df warned,
      (fetch_month_strat_data "u" 30 ["created_date"] "borough" "BK" 10 0 2 2 (7 / 5)
        (@take_pick ℤ) (fun _ => (OrderDir.asc, 0)) http_days).1 = .ok (df, warned) ∧
      df.Nodup ∧
      (∀ r, r ∈ df ↔ r ∈ (month_parts http_days
        (month_req "u" 30 ["created_date"] "borough" "BK"
          (month_per_day 10 (7 / 5) (calc_k_days 0 2 2 (@take_pick ℤ)).length)
          (fun _ => (OrderDir.asc, 0)))
        (calc_k_days 0 2 2 (@take_pick ℤ))).flatten) ∧
      (∀ r, r ∈ (month_parts http_days
        (month_req "u" 30 ["created_date"] "borough" "BK"
          (month_per_day 10 (7 / 5) (calc_k_days 0 2 2 (@take_pick ℤ)).length)
          (fun _ => (OrderDir.asc, 0)))
        (calc_k_days 0 2 2 (@take_pick ℤ))).flatten → df.count r = 1) ∧
      ((month_parts http_days
        (month_req "u" 30 ["created_date"] "borough" "BK"
          (month_per_day 10 (7 / 5) (calc_k_days 0 2 2 (@take_pick ℤ)).length)
          (fun _ => (OrderDir.asc, 0)))
        (calc_k_days 0 2 2 (@take_pick ℤ))) = [] → df = [] ∧ warned = true)) :=
  ⟨by decide,
    fetch_month_strat_data_dedup "u" 30 ["created_date"] "borough" "BK" 10 0 2 2 (7 / 5)
      (@take_pick ℤ) (fun _ => (OrderDir.asc, 0)) http_days (by decide)⟩

/-- C5 counterexample: the query composed by `fetch_random_sample` for the
window `[0, 5]` matches a row whose `created_date` equals the end bound
`5` — the end bound is not excluded, because SoQL `between` is inclusive
of both endpoints. -/
theorem end_bound_included_cex :
    ((fetch_random_sample "u" ["created_date"] "BK" "borough" 0 5 3 2 7 OrderDir.asc
      (@take_pick ℕ) http_fail).2).map
        (fun req => req.whereC.matchesRow 5 "BK") = [true] := rfl

/-- C5 (amended): every remote query composed by `fetch_random_sample`
and by each per-day fetch of `fetch_month_strat_data` restricts rows to
the closed window `[start, end]` — SoQL `between` is inclusive, so a row
whose `created_date` equals the end bound is included in the requested
slice (for the per-day windows `[d, d+1]`, next-day midnight rows
included). -/
theorem queries_use_inclusive_between :
    (∀ (w : WhereClause) (t : ℤ) (g : String),
      w.matchesRow t g = true ↔ (w.startT ≤ t ∧ t ≤ w.endT ∧ g = w.groupValue)) ∧
    (∀ {Row : Type} (url : String) (selectors : List String)
      (group_value group_by : String) (time_start time_end : ℤ)
      (sample_size multiplier offset : ℕ) (order_dir : OrderDir)
      (pick : List Row → ℕ → List Row)
      (http : Request → Except HttpError (List Row)) (req : Request),
      req ∈ (fetch_random_sample url selectors group_value group_by time_start time_end
        sample_size multiplier offset order_dir pick http).2 →
      req.whereC = ⟨time_start, time_end, group_by, group_value⟩ ∧
      (time_start ≤ time_end → req.whereC.matchesRow time_end group_value = true)) ∧
    (∀ {Row : Type} [DecidableEq Row] (BASE_URL : String) (MAX_TIMEOUT : ℕ)
      (selectors : List String) (group_by group_by_value : String) (target : ℤ)
      (start end_ : ℤ) (k_days : ℕ) (per_day_mult : ℚ)
      (pick : List ℤ → ℕ → List ℤ) (draws : ℤ → OrderDir × ℕ)
      (http : Request → Except HttpError (List Row)) (req : Request),
      req ∈ (fetch_month_strat_data BASE_URL MAX_TIMEOUT selectors group_by
        group_by_value target start end_ k_days per_day_mult pick draws http).2 →
      ∃ d, d ∈ calc_k_days start end_ k_days pick ∧
        req.whereC = ⟨d, d + 1, group_by, group_by_value⟩ ∧
        req.whereC.matchesRow (d + 1) group_by_value = true) := by
  refine ⟨?_, ?_, ?_⟩
  · intro w t g
    simp [WhereClause.matchesRow, and_assoc]
  · intro Row url selectors group_value group_by time_start time_end
      sample_size multiplier offset order_dir pick http req hmem
    rw [frs_trace] at hmem
    rw [List.mem_singleton] at hmem
    subst hmem
    refine ⟨rfl, ?_⟩
    intro hle
    simp [frs_request, WhereClause.matchesRow, hle]
  · intro Row _ BASE_URL MAX_TIMEOUT selectors group_by group_by_value target
      start end_ k_days per_day_mult pick draws http req hmem
    by_cases hdays : calc_k_days start end_ k_days pick = []
    · simp [fetch_month_strat_data, hdays] at hmem
    · simp only [fetch_month_strat_data, if_neg hdays, apply_ite Prod.snd] at hmem
      rw [ite_self] at hmem
      rw [List.mem_map] at hmem
      obtain ⟨d, hd, rfl⟩ := hmem
      refine ⟨d, hd, rfl, ?_⟩
      simp [month_req, WhereClause.matchesRow]

/-- Witness for `queries_use_inclusive_between`: the single request of a
concrete `fetch_random_sample` call has the expected clause and matches
the end-bound row. -/
theorem queries_use_inclusive_between_spot :
    (frs_request "u" ["created_date"] "BK" "borough" 0 5 3 2 7 OrderDir.asc) ∈
      (fetch_random_sample "u" ["created_date"] "BK" "borough" 0 5 3 2 7 OrderDir.asc
        (@take_pick ℕ) http_fail).2 ∧
    ((frs_request "u" ["created_date"] "BK" "borough" 0 5 3 2 7 OrderDir.asc).whereC =
      ⟨0, 5, "borough", "BK"⟩ ∧
    ((0 : ℤ) ≤ 5 →
      (frs_request "u" ["created_date"] "BK" "borough" 0 5 3 2 7
        OrderDir.asc).whereC.matchesRow 5 "BK" = true)) := by
  have hmem : (frs_request "u" ["created_date"] "BK" "borough" 0 5 3 2 7 OrderDir.asc) ∈
      (fetch_random_sample "u" ["created_date"] "BK" "borough" 0 5 3 2 7 OrderDir.asc
        (@take_pick ℕ) http_fail).2 := by
    rw [frs_trace]
    exact List.mem_singleton.mpr rfl
  exact ⟨hmem, queries_use_inclusive_between.2.1 "u" ["created_date"] "BK" "borough"
    0 5 3 2 7 OrderDir.asc (@take_pick ℕ) http_fail _ hmem⟩
